import Mathlib

/-!
Verification of the token-based session/authorization gate of the Codex
library-management backend, together with the account, book and genre
mutations that sit behind it.  Python strings are embedded as lists of
character codes (`PyStr`), database rows as Lean structures, and each
mutation as a pure function from the database/request state to a result
together with the successor state.
-/

namespace Codex

/-- Python strings embedded as lists of Unicode code points. -/
abbrev PyStr := List Nat

/-- The code point of the delimiter `-` used in the token wire format. -/
def dashCode : Nat := 45

/-- Modelled from the spec: Django's `int_to_base36` digit alphabet
(`0-9` then `a-z`); digit `d` maps to code `48 + d` below ten and
`87 + d` (that is, `a` = 97 for `d` = 10) otherwise. -/
def b36digit (d : Nat) : Nat :=
  if d < 10 then 48 + d else 87 + d

/-- Fuel-driven core of base-36 rendering; emits most-significant digit
first, in front of the accumulator. -/
def intToBase36Core : Nat → Nat → List Nat → List Nat
  | 0, _, acc => acc
  | fuel + 1, n, acc =>
    if n < 36 then b36digit n :: acc
    else intToBase36Core fuel (n / 36) (b36digit (n % 36) :: acc)

/-- Modelled from the spec: Django's `int_to_base36`, the timestamp
component of the password-reset token wire format. -/
def intToBase36 (n : Nat) : PyStr :=
  intToBase36Core (n + 1) n []

/-- Value of one base-36 digit character (accepts `0-9`, `a-z`, `A-Z`,
as Python's `int(s, 36)` does). -/
def b36val (c : Nat) : Option Nat :=
  if 48 ≤ c ∧ c ≤ 57 then some (c - 48)
  else if 97 ≤ c ∧ c ≤ 122 then some (c - 87)
  else if 65 ≤ c ∧ c ≤ 90 then some (c - 55)
  else none

/-- Left-to-right accumulation of base-36 digits; any non-digit
character aborts the parse. -/
def parseB36Digits : List Nat → Nat → Option Nat
  | [], acc => some acc
  | c :: rest, acc =>
    match b36val c with
    | none => none
    | some d => parseB36Digits rest (acc * 36 + d)

/-- Modelled from the spec: Django's `base36_to_int`; rejects strings
longer than 13 characters and anything `int(s, 36)` cannot parse. -/
def base36ToInt (s : PyStr) : Option Nat :=
  if 13 < s.length then none
  else if s = [] then none
  else parseB36Digits s 0

/-- Fuel-driven core of decimal rendering of a natural number. -/
def decStrCore : Nat → Nat → List Nat → List Nat
  | 0, _, acc => acc
  | fuel + 1, n, acc =>
    if n < 10 then (48 + n) :: acc
    else decStrCore fuel (n / 10) ((48 + n % 10) :: acc)

/-- Decimal rendering of a natural number, as Python's `str`. -/
def decStr (n : Nat) : PyStr :=
  decStrCore (n + 1) n []

/-- Python's `str` on booleans: `"True"` / `"False"`. -/
def boolStr : Bool → PyStr
  | true => [84, 114, 117, 101]
  | false => [70, 97, 108, 115, 101]

/-- Python's `str.split("-")`: splits on every dash, keeping empty
segments, so the result is always nonempty. -/
def splitOnDash : PyStr → List PyStr
  | [] => [[]]
  | c :: rest =>
    if c = dashCode then [] :: splitOnDash rest
    else
      match splitOnDash rest with
      | [] => [[c]]
      | p :: ps => (c :: p) :: ps

/-! ### Lemmas about the string machinery -/

theorem splitOnDash_ne_nil (s : PyStr) : splitOnDash s ≠ [] := by
  induction s with
  | nil => simp [splitOnDash]
  | cons c rest ih =>
    simp only [splitOnDash]
    split
    · simp
    · cases h : splitOnDash rest with
      | nil => simp
      | cons p ps => simp

theorem splitOnDash_no_dash {s : PyStr} (h : dashCode ∉ s) :
    splitOnDash s = [s] := by
  induction s with
  | nil => simp [splitOnDash]
  | cons c rest ih =>
    simp only [List.mem_cons, not_or] at h
    simp only [splitOnDash]
    rw [if_neg (fun hc => h.1 hc.symm)]
    rw [ih h.2]

theorem splitOnDash_append {a b : PyStr} (ha : dashCode ∉ a) :
    splitOnDash (a ++ dashCode :: b) = a :: splitOnDash b := by
  induction a with
  | nil => simp [splitOnDash]
  | cons c rest ih =>
    simp only [List.mem_cons, not_or] at ha
    simp only [List.cons_append, splitOnDash]
    rw [if_neg (fun hc => ha.1 hc.symm)]
    simp only [List.append_eq]
    rw [ih ha.2]

theorem splitOnDash_pair {a b : PyStr} (ha : dashCode ∉ a) (hb : dashCode ∉ b) :
    splitOnDash (a ++ dashCode :: b) = [a, b] := by
  rw [splitOnDash_append ha, splitOnDash_no_dash hb]

/-- Rejoining the split segments with dashes recovers the string. -/
def joinDash : List PyStr → PyStr
  | [] => []
  | [p] => p
  | p :: ps => p ++ dashCode :: joinDash ps

theorem joinDash_splitOnDash (s : PyStr) : joinDash (splitOnDash s) = s := by
  induction s with
  | nil => simp [splitOnDash, joinDash]
  | cons c rest ih =>
    simp only [splitOnDash]
    split
    · rename_i hc
      subst hc
      cases h : splitOnDash rest with
      | nil => exact absurd h (splitOnDash_ne_nil rest)
      | cons p ps =>
        rw [h] at ih
        simp [joinDash, ← ih]
    · cases h : splitOnDash rest with
      | nil => exact absurd h (splitOnDash_ne_nil rest)
      | cons p ps =>
        rw [h] at ih
        cases ps with
        | nil => simp_all [joinDash]
        | cons q qs => simp_all [joinDash]

theorem splitOnDash_parts_no_dash {s : PyStr} {p : PyStr}
    (hp : p ∈ splitOnDash s) : dashCode ∉ p := by
  induction s generalizing p with
  | nil =>
    simp [splitOnDash] at hp
    simp [hp]
  | cons c rest ih =>
    simp only [splitOnDash] at hp
    by_cases hc : c = dashCode
    · rw [if_pos hc] at hp
      rcases List.mem_cons.mp hp with h | h
      · simp [h]
      · exact ih h
    · rw [if_neg hc] at hp
      cases h : splitOnDash rest with
      | nil => exact absurd h (splitOnDash_ne_nil rest)
      | cons q qs =>
        rw [h] at hp
        rcases List.mem_cons.mp hp with h1 | h1
        · subst h1
          intro hmem
          rcases List.mem_cons.mp hmem with h2 | h2
          · exact hc h2.symm
          · exact ih (h ▸ List.mem_cons_self q qs) h2
        · exact ih (h ▸ List.mem_cons.mpr (Or.inr h1))

theorem splitOnDash_eq_pair {s a b : PyStr} (h : splitOnDash s = [a, b]) :
    s = a ++ dashCode :: b ∧ dashCode ∉ a ∧ dashCode ∉ b := by
  have hj := joinDash_splitOnDash s
  rw [h] at hj
  refine ⟨?_, ?_, ?_⟩
  · simpa [joinDash] using hj.symm
  · exact splitOnDash_parts_no_dash (h ▸ (by simp : a ∈ [a, b]))
  · exact splitOnDash_parts_no_dash (h ▸ (by simp : b ∈ [a, b]))

theorem b36val_b36digit {d : Nat} (hd : d < 36) :
    b36val (b36digit d) = some d := by
  simp only [b36digit, b36val]
  split_ifs <;> simp_all <;> omega

theorem b36digit_ne_dash (d : Nat) : b36digit d ≠ dashCode := by
  simp only [b36digit, dashCode]
  split <;> omega

theorem intToBase36Core_no_dash (fuel n : Nat) {acc : List Nat}
    (hacc : dashCode ∉ acc) : dashCode ∉ intToBase36Core fuel n acc := by
  induction fuel generalizing n acc with
  | zero => exact hacc
  | succ fuel ih =>
    simp only [intToBase36Core]
    split
    · intro hmem
      rcases List.mem_cons.mp hmem with h | h
      · exact b36digit_ne_dash n h.symm
      · exact hacc h
    · refine ih _ ?_
      intro hmem
      rcases List.mem_cons.mp hmem with h | h
      · exact b36digit_ne_dash (n % 36) h.symm
      · exact hacc h

theorem intToBase36_no_dash (n : Nat) : dashCode ∉ intToBase36 n :=
  intToBase36Core_no_dash (n + 1) n (by simp)

theorem intToBase36Core_ne_nil (fuel n : Nat) {acc : List Nat}
    (hacc : acc ≠ []) : intToBase36Core fuel n acc ≠ [] := by
  induction fuel generalizing n acc with
  | zero => exact hacc
  | succ fuel ih =>
    simp only [intToBase36Core]
    split
    · simp
    · exact ih _ (by simp)

theorem intToBase36_ne_nil (n : Nat) : intToBase36 n ≠ [] := by
  unfold intToBase36
  simp only [intToBase36Core]
  split
  · simp
  · exact intToBase36Core_ne_nil _ _ (by simp)

theorem parseB36Digits_intToBase36Core (fuel : Nat) :
    ∀ n acc, n < 36 ^ fuel →
      parseB36Digits (intToBase36Core fuel n acc) 0 = parseB36Digits acc n := by
  induction fuel with
  | zero =>
    intro n acc hn
    interval_cases n
    rfl
  | succ fuel ih =>
    intro n acc hn
    simp only [intToBase36Core]
    split
    · rename_i h36
      simp [parseB36Digits, b36val_b36digit h36]
    · rename_i h36
      push_neg at h36
      have hpow : (36 : Nat) ^ (fuel + 1) = 36 * 36 ^ fuel := by ring
      have hdiv : n / 36 < 36 ^ fuel := by
        apply Nat.div_lt_of_lt_mul
        omega
      rw [ih (n / 36) _ hdiv]
      have hmod : n % 36 < 36 := Nat.mod_lt _ (by omega)
      simp only [parseB36Digits, b36val_b36digit hmod]
      have hdm : n / 36 * 36 + n % 36 = n := by omega
      rw [hdm]

theorem parseB36Digits_intToBase36 (n : Nat) :
    parseB36Digits (intToBase36 n) 0 = some n := by
  have h := parseB36Digits_intToBase36Core (n + 1) n []
    (lt_of_lt_of_le (Nat.lt_pow_self (by omega) n)
      (Nat.pow_le_pow_right (by omega) (by omega)))
  simpa [intToBase36, parseB36Digits] using h

theorem base36ToInt_intToBase36 {n : Nat}
    (hlen : (intToBase36 n).length ≤ 13) :
    base36ToInt (intToBase36 n) = some n := by
  unfold base36ToInt
  rw [if_neg (by omega), if_neg (intToBase36_ne_nil n)]
  exact parseB36Digits_intToBase36 n

/-! ### Data model (src/account/models.py, src/books/models.py, src/genre/models.py) -/

/-- How a password string ends up stored on the identity record:
`CustomUserManager.create_user` runs it through `set_password`
(a salted one-way hash, abstracted as the `hashed` constructor keeping
the salt and the input), while a plain field assignment stores the raw
string unchanged. -/
inductive StoredPassword where
  | raw (p : String)
  | hashed (salt : Nat) (p : String)
deriving DecidableEq, Repr

/-- A `CustomUser` row (src/account/models.py lines 53-95).  The UUID
and auto-increment keys are abstracted as naturals; `token` is the
nullable unique session-token column. -/
structure User where
  pk : Nat
  email : String
  username : String
  firstName : String
  lastName : String
  isActive : Bool
  isAdmin : Bool
  isPatron : Bool
  isAuthor : Bool
  token : Option PyStr
  password : StoredPassword
deriving DecidableEq, Repr

/-- An `AuthorUser` row (src/account/models.py lines 138-158): the
one-to-one link from an author profile to its user. -/
structure AuthorRec where
  authorId : Nat
  userPk : Nat
deriving DecidableEq, Repr

/-- Python attribute values as left on a model instance by the code
under scrutiny: `None`, a string, or an integer. -/
inductive PyVal where
  | none
  | str (s : String)
  | int (n : Int)
deriving DecidableEq, Repr

/-- A `Book` row (src/books/models.py lines 12-79).  The eight columns
that `edit_book` assigns are kept as raw Python attribute values; the
`author` and `genres` many-to-many relations are sets of foreign keys. -/
structure BookRec where
  bookid : Nat
  title : PyVal
  isbn : PyVal
  description : PyVal
  rating : PyVal
  publishyear : PyVal
  noofreviews : PyVal
  avaliablecopies : PyVal
  bookpages : PyVal
  authors : List Nat
  genres : List Nat
deriving DecidableEq, Repr

/-- A `Genre` row (src/genre/models.py lines 6-51). -/
structure GenreRec where
  genreid : Nat
  name : String
  description : String
deriving DecidableEq, Repr

/-- The relational store as seen by the mutations. -/
structure DB where
  users : List User
  authors : List AuthorRec
  books : List BookRec
  genres : List GenreRec
deriving DecidableEq, Repr

/-- The inbound request: the raw `Authorization` header value (a code
point string, `none` when the header is absent) and the framework
session (the logged-in user's key, cleared by `logout`). -/
structure Request where
  auth : Option PyStr
  sessionUser : Option Nat
deriving DecidableEq, Repr

/-! ### Session token authority (src/account/tokens.py) -/

/-- `ExpiringTokenGenerator._make_hash_value` (src/account/tokens.py
lines 20-35): ignores the timestamp argument and concatenates
`str(user.pk)`, `str(datetime.now() + timedelta(seconds=10))` and
`str(user.is_active)`.  The clock is modelled as a natural number of
seconds, so the datetime rendering is `decStr (now + 10)`. -/
def makeHashValue (u : User) (now : Nat) : PyStr :=
  decStr u.pk ++ decStr (now + 10) ++ boolStr u.isActive

/-- Modelled from the spec: Django's
`PasswordResetTokenGenerator._make_token_with_timestamp` — the wire
format `<base36-timestamp><dash><hash>`, where the hash component is
the keyed salted hash (parameter `hashFn`, covering
`salted_hmac(...).hexdigest()[::2]`) of the repository's overridden
`_make_hash_value`, which reads the current clock instead of the
timestamp argument. -/
def makeTokenWithTimestamp (hashFn : PyStr → PyStr) (now : Nat)
    (u : User) (ts : Nat) : PyStr :=
  intToBase36 ts ++ dashCode :: hashFn (makeHashValue u now)

/-- Modelled from the spec: Django's
`PasswordResetTokenGenerator.make_token`; the timestamp component is
the number of seconds on the current clock. -/
def makeToken (hashFn : PyStr → PyStr) (now : Nat) (u : User) : PyStr :=
  makeTokenWithTimestamp hashFn now u now

/-- Modelled from the spec: Django's `settings.PASSWORD_RESET_TIMEOUT`
(the project keeps the framework default of three days); the claims do
not depend on its value. -/
def PASSWORD_RESET_TIMEOUT : Nat := 259200

/-- Modelled from the spec: Django's
`PasswordResetTokenGenerator.check_token` under the repository's
`_make_hash_value` override — split on the dash, parse the base-36
timestamp, recompute the token for that timestamp (whose hash part is
re-derived from the *current* clock, the instability the spec notes),
compare exactly, then reject timestamps older than the timeout.  Any
malformed token yields `false`. -/
def checkToken (hashFn : PyStr → PyStr) (now : Nat) (u : User)
    (tok : PyStr) : Bool :=
  if tok = [] then false
  else
    match splitOnDash tok with
    | [ts36, _] =>
      match base36ToInt ts36 with
      | none => false
      | some ts =>
        if makeTokenWithTimestamp hashFn now u ts = tok then
          decide ((now : Int) - (ts : Int) ≤ (PASSWORD_RESET_TIMEOUT : Int))
        else false
    | _ => false

/-- The failure taxonomy of `verify_header`. -/
inductive AuthError where
  | unauthenticated
  | invalidToken
  | tokenExpired
deriving DecidableEq, Repr

/-- The user-facing message attached to each `GraphQLError` raised by
`verify_header` (src/account/tokens.py lines 63, 71, 73). -/
def AuthError.message : AuthError → String
  | .unauthenticated => "User has not Login"
  | .invalidToken => "Authorization Token is Invalid"
  | .tokenExpired => "Token has Expired"

/-- `CustomUser.objects.get(token=token)` under the unique constraint
on the token column: the first (hence, in a consistent store, only)
user whose stored token equals the presented string. -/
def getUserByToken (users : List User) (t : PyStr) : Option User :=
  users.find? (fun u => u.token == some t)

/-- `user.token = None; user.save()` for the user with the given key. -/
def clearTokenOf (users : List User) (pk : Nat) : List User :=
  users.map (fun u => if u.pk == pk then { u with token := none } else u)

/-- `verify_header` (src/account/tokens.py lines 39-73): a falsy
(absent or empty) header fails `Unauthenticated`; a header matching no
stored token fails `InvalidToken`; a matching user passes through
`check_token`, returning the user on success and, on failure, clearing
the stored token, logging the session out and failing `TokenExpired`.
Returns the outcome together with the successor store and request. -/
def verifyHeader (hashFn : PyStr → PyStr) (now : Nat) (db : DB)
    (req : Request) : Except AuthError User × DB × Request :=
  match req.auth with
  | some t =>
    if t = [] then (.error .unauthenticated, db, req)
    else
      match getUserByToken db.users t with
      | none => (.error .invalidToken, db, req)
      | some u =>
        if checkToken hashFn now u t then (.ok u, db, req)
        else (.error .tokenExpired,
              { db with users := clearTokenOf db.users u.pk },
              { req with sessionUser := none })
  | none => (.error .unauthenticated, db, req)

/-! ### Mutation results -/

/-- Outcome of one GraphQL mutation: the result (the `GraphQLError`
message on failure), plus the successor store and request. -/
structure MutOut where
  result : Except String Unit
  db : DB
  req : Request
deriving Repr

instance {ε α : Type} [DecidableEq ε] [DecidableEq α] :
    DecidableEq (Except ε α) := fun a b =>
  match a, b with
  | .error x, .error y =>
    if h : x = y then isTrue (by rw [h])
    else isFalse (by intro hc; injection hc; exact h (by assumption))
  | .error _, .ok _ => isFalse (by intro h; cases h)
  | .ok _, .error _ => isFalse (by intro h; cases h)
  | .ok x, .ok y =>
    if h : x = y then isTrue (by rw [h])
    else isFalse (by intro hc; injection hc; exact h (by assumption))

instance : DecidableEq MutOut := fun a b =>
  decidable_of_iff
    (a.result = b.result ∧ a.db = b.db ∧ a.req = b.req)
    (by cases a; cases b; simp_all)

/-! ### Account mutations (src/account/views.py) -/

/-- Modelled from the spec: Django's `check_password` boolean facility.
A hashed record verifies exactly when the submitted string equals the
hashed input; a raw stored string is not a recognisable hash, so
verification cannot pass. -/
def checkPassword (p : String) (stored : StoredPassword) : Bool :=
  match stored with
  | .raw _ => false
  | .hashed _ q => p == q

/-- Modelled from the spec: `user.set_password(password)` stores a
salted one-way hash of the supplied password; the salt draw is
externalised as a parameter. -/
def set_password (salt : Nat) (p : String) : StoredPassword :=
  .hashed salt p

/-- `CustomUserManager.create_user` (src/account/models.py lines
14-32): requires an email, builds the row, and stores the password
through `set_password`.  The auto key and salt draws are parameters. -/
def create_user (pk salt : Nat) (email username firstName lastName : String)
    (password : String) : Except String User :=
  if email = "" then .error "Email must be set"
  else .ok
    { pk := pk, email := email, username := username,
      firstName := firstName, lastName := lastName,
      isActive := true, isAdmin := false, isPatron := false,
      isAuthor := false, token := none,
      password := set_password salt password }

/-- `SignUpMutation.mutate` (src/account/views.py lines 134-159): on
matching confirmation it calls `CustomUser.objects.create(...)` — the
*default* manager create, which assigns the `password` keyword straight
onto the field without `set_password` — and a duplicate email or
username surfaces the integrity error.  The auto key is a parameter. -/
def signUpMutation (pk : Nat) (db : DB) (req : Request)
    (email username firstName lastName password confirmPassword : String) :
    MutOut :=
  if password = confirmPassword then
    if db.users.any (fun u => u.email == email || u.username == username) then
      ⟨.error "UNIQUE constraint failed: account_customuser", db, req⟩
    else
      ⟨.ok (),
       { db with users := db.users ++
          [{ pk := pk, email := email, username := username,
             firstName := firstName, lastName := lastName,
             isActive := true, isAdmin := false, isPatron := false,
             isAuthor := false, token := none,
             password := .raw password }] },
       req⟩
  else ⟨.error "Password does not match", db, req⟩

/-- `LoginMutation.mutate` (src/account/views.py lines 87-107): resolve
the user by email (`objects.get` propagates `DoesNotExist`), check the
password; on success generate a token only when none is stored, save,
and log the session in; otherwise raise the invalid-credentials
error. -/
def loginMutation (hashFn : PyStr → PyStr) (now : Nat) (db : DB)
    (req : Request) (email password : String) : MutOut :=
  match db.users.find? (fun u => u.email == email) with
  | none => ⟨.error "CustomUser matching query does not exist.", db, req⟩
  | some u =>
    if checkPassword password u.password then
      let u' := if u.token = none
        then { u with token := some (makeToken hashFn now u) }
        else u
      let users' := db.users.map (fun w => if w.pk == u.pk then u' else w)
      ⟨.ok (), { db with users := users' },
       { req with sessionUser := some u.pk }⟩
    else ⟨.error "Invalid credentials. Please try again.", db, req⟩

/-! ### Book model operations (src/books/models.py) -/

/-- Python `"k" in kwargs.keys()` over a keyword mapping. -/
def dictHasKey (k : String) (kw : List (String × PyVal)) : Bool :=
  (kw.lookup k).isSome

/-- Python `kwargs.get(k)`: the stored value when the key is present,
`None` otherwise. -/
def dictGet (k : String) (kw : List (String × PyVal)) : PyVal :=
  (kw.lookup k).getD .none

/-- `Book.edit_book` (src/books/models.py lines 71-79): each of the
eight fields is overwritten from the mapping exactly when its key is
present.  The `title` assignment reads the key "title`" — with a stray
backtick, faithful to the source — so it fetches a value that the
mutation's mapping never contains. -/
def edit_book (b : BookRec) (kw : List (String × PyVal)) : BookRec :=
  { b with
    isbn := if dictHasKey "isbn" kw then dictGet "isbn" kw else b.isbn,
    title := if dictHasKey "title" kw then dictGet "title`" kw else b.title,
    rating := if dictHasKey "rating" kw then dictGet "rating" kw else b.rating,
    bookpages := if dictHasKey "bookpages" kw then dictGet "bookpages" kw
      else b.bookpages,
    description := if dictHasKey "description" kw then dictGet "description" kw
      else b.description,
    publishyear := if dictHasKey "publishyear" kw then dictGet "publishyear" kw
      else b.publishyear,
    noofreviews := if dictHasKey "noofreviews" kw then dictGet "noofreviews" kw
      else b.noofreviews,
    avaliablecopies := if dictHasKey "avaliablecopies" kw
      then dictGet "avaliablecopies" kw else b.avaliablecopies }

/-- The `all_query` keyword mapping built by `EditBookMutation.mutate`
(src/books/views.py lines 262-266): always exactly these eight keys. -/
def all_query (title isbn description noofreviews avaliablecopies rating
    publishyear bookpages : PyVal) : List (String × PyVal) :=
  [("title", title), ("isbn", isbn), ("description", description),
   ("noofreviews", noofreviews), ("avaliablecopies", avaliablecopies),
   ("rating", rating), ("publishyear", publishyear),
   ("bookpages", bookpages)]

/-! ### Book mutations (src/books/views.py) -/

/-- `EditBookMutation.mutate` (src/books/views.py lines 232-271):
verify the header, require `is_author`, fetch the book (404 otherwise),
then evaluate `user.authoruser.book.all()` — but `AuthorUser` has no
attribute `book` (the reverse accessor of the `Book.author` relation is
`book_set`), so an `AttributeError` is raised and re-raised as a
`GraphQLError`; lines 262-268 (the `all_query` edit) are unreachable.
The field arguments are omitted because no execution reads them. -/
def editBookMutation (hashFn : PyStr → PyStr) (now : Nat) (db : DB)
    (req : Request) (bookid : Nat) : MutOut :=
  match verifyHeader hashFn now db req with
  | (.error e, db', req') => ⟨.error e.message, db', req'⟩
  | (.ok u, db', req') =>
    if !u.isAuthor then ⟨.error "User is not an author", db', req'⟩
    else
      match db'.books.find? (fun b => b.bookid == bookid) with
      | none => ⟨.error "No Book matches the given query.", db', req'⟩
      | some _ =>
        match db'.authors.find? (fun a => a.userPk == u.pk) with
        | none => ⟨.error "CustomUser has no authoruser.", db', req'⟩
        | some _ =>
          ⟨.error "AuthorUser object has no attribute book", db', req'⟩

/-- `DeleteBookMutation.mutate` (src/books/views.py lines 286-310):
verify the header, fetch the book, require `is_author`, and then —
faithful to line 305, which tests `if (book in
user.authoruser.book_set.all())` with no negation — reject with
"User not the author of Book" exactly when the acting author IS in the
book's author set, and delete the book otherwise. -/
def deleteBookMutation (hashFn : PyStr → PyStr) (now : Nat) (db : DB)
    (req : Request) (bookid : Nat) : MutOut :=
  match verifyHeader hashFn now db req with
  | (.error e, db', req') => ⟨.error e.message, db', req'⟩
  | (.ok u, db', req') =>
    match db'.books.find? (fun b => b.bookid == bookid) with
    | none => ⟨.error "No Book matches the given query.", db', req'⟩
    | some book =>
      if !u.isAuthor then ⟨.error "User is not an author", db', req'⟩
      else
        match db'.authors.find? (fun a => a.userPk == u.pk) with
        | none => ⟨.error "CustomUser has no authoruser.", db', req'⟩
        | some a =>
          if a.authorId ∈ book.authors then
            ⟨.error "User not the author of Book", db', req'⟩
          else
            ⟨.ok (),
             { db' with books :=
                db'.books.filter (fun b => b.bookid != book.bookid) },
             req'⟩

/-- `AddToBook.mutate` (src/books/views.py lines 115-136), the shared
super-mutation of the four relation mutations: after the header and
role checks, line 132 reads the free variable `bookid`, which is bound
neither in the method (whose only parameters are `self` and `info`) nor
at module scope, so a `NameError` is raised and re-raised as a
`GraphQLError`; the ownership check and the `self.book` assignment are
unreachable.  Every call therefore ends in one of these messages. -/
def addToBookSuper (hashFn : PyStr → PyStr) (now : Nat) (db : DB)
    (req : Request) : String × DB × Request :=
  match verifyHeader hashFn now db req with
  | (.error e, db', req') => (e.message, db', req')
  | (.ok u, db', req') =>
    if !u.isAuthor then ("User is not an author", db', req')
    else ("name bookid is not defined", db', req')

/-- `AddAuthorToBookMutation.mutate` (src/books/views.py lines
334-358): `super().mutate(info)` always raises (see `addToBookSuper`),
the `except` turns that into a returned `GraphQLError`, and the
duplicate-guarded `self.book.author.add` on lines 352-355 is dead code
— no relation is ever touched. -/
def addAuthorToBookMutation (hashFn : PyStr → PyStr) (now : Nat) (db : DB)
    (req : Request) (_bookid _authorid : Nat) : MutOut :=
  match addToBookSuper hashFn now db req with
  | (e, db', req') => ⟨.error e, db', req'⟩

/-- `RemoveAuthorFromBookMutation.mutate` (src/books/views.py lines
432-456): as with adding, `super().mutate(info)` always raises, so the
presence-guarded `self.book.author.remove` on lines 451-453 is dead
code. -/
def removeAuthorFromBookMutation (hashFn : PyStr → PyStr) (now : Nat)
    (db : DB) (req : Request) (_bookid _authorid : Nat) : MutOut :=
  match addToBookSuper hashFn now db req with
  | (e, db', req') => ⟨.error e, db', req'⟩

/-- `AddGenreToBookMutation.mutate` (src/books/views.py lines 383-407):
same dead relation logic behind the always-raising super call. -/
def addGenreToBookMutation (hashFn : PyStr → PyStr) (now : Nat) (db : DB)
    (req : Request) (_bookid _genreid : Nat) : MutOut :=
  match addToBookSuper hashFn now db req with
  | (e, db', req') => ⟨.error e, db', req'⟩

/-- `RemoveGenreFromBookMutation.mutate` (src/books/views.py lines
481-505): same dead relation logic behind the always-raising super
call. -/
def removeGenreFromBookMutation (hashFn : PyStr → PyStr) (now : Nat)
    (db : DB) (req : Request) (_bookid _genreid : Nat) : MutOut :=
  match addToBookSuper hashFn now db req with
  | (e, db', req') => ⟨.error e, db', req'⟩

/-! ### Genre mutations (src/genre/views.py) -/

/-- `CreateGenreMutation.mutate` (src/genre/views.py lines 58-66):
verify the header, then create the genre — no role flag is consulted.
The fresh UUID draw is the `newId` parameter. -/
def createGenreMutation (hashFn : PyStr → PyStr) (now : Nat) (db : DB)
    (req : Request) (newId : Nat) (name description : String) : MutOut :=
  match verifyHeader hashFn now db req with
  | (.error e, db', req') => ⟨.error e.message, db', req'⟩
  | (.ok _, db', req') =>
    ⟨.ok (),
     { db' with genres := db'.genres ++ [⟨newId, name, description⟩] },
     req'⟩

/-- `EditGenreMutation.mutate` (src/genre/views.py lines 88-97): verify
the header, fetch the genre, overwrite each field whose argument is not
`None`, save — no role flag is consulted. -/
def editGenreMutation (hashFn : PyStr → PyStr) (now : Nat) (db : DB)
    (req : Request) (genreid : Nat) (name description : Option String) :
    MutOut :=
  match verifyHeader hashFn now db req with
  | (.error e, db', req') => ⟨.error e.message, db', req'⟩
  | (.ok _, db', req') =>
    match db'.genres.find? (fun g => g.genreid == genreid) with
    | none => ⟨.error "Genre matching query does not exist.", db', req'⟩
    | some g =>
      let g' : GenreRec :=
        { g with
          name := (match name with | some s => s | none => g.name),
          description := (match description with
            | some s => s | none => g.description) }
      let genres' := db'.genres.map
        (fun h => if h.genreid == genreid then g' else h)
      ⟨.ok (), { db' with genres := genres' }, req'⟩

/-- `DeleteGenreMutation.mutate` (src/genre/views.py lines 115-122):
verify the header, fetch the genre, delete it — no role flag is
consulted. -/
def deleteGenreMutation (hashFn : PyStr → PyStr) (now : Nat) (db : DB)
    (req : Request) (genreid : Nat) : MutOut :=
  match verifyHeader hashFn now db req with
  | (.error e, db', req') => ⟨.error e.message, db', req'⟩
  | (.ok _, db', req') =>
    match db'.genres.find? (fun g => g.genreid == genreid) with
    | none => ⟨.error "Genre matching query does not exist.", db', req'⟩
    | some g =>
      ⟨.ok (),
       { db' with genres :=
          db'.genres.filter (fun h => h.genreid != g.genreid) },
       req'⟩

/-! ### Inversion and frame lemmas for the gate -/

theorem verifyHeader_ok_inv {hashFn : PyStr → PyStr} {now : Nat} {db : DB}
    {req : Request} {u : User} {db' : DB} {req' : Request}
    (h : verifyHeader hashFn now db req = (.ok u, db', req')) :
    ∃ t, req.auth = some t ∧ t ≠ [] ∧
      getUserByToken db.users t = some u ∧
      checkToken hashFn now u t = true ∧ db' = db ∧ req' = req := by
  unfold verifyHeader at h
  cases hauth : req.auth with
  | none => rw [hauth] at h; dsimp only at h; simp at h
  | some t =>
    rw [hauth] at h
    dsimp only at h
    by_cases ht : t = []
    · rw [if_pos ht] at h; simp at h
    · rw [if_neg ht] at h
      cases hfind : getUserByToken db.users t with
      | none => rw [hfind] at h; dsimp only at h; simp at h
      | some w =>
        rw [hfind] at h
        dsimp only at h
        by_cases hc : checkToken hashFn now w t
        · rw [if_pos hc] at h
          simp only [Prod.mk.injEq, Except.ok.injEq] at h
          obtain ⟨hw, hdb, hreq⟩ := h
          subst hw
          exact ⟨t, rfl, ht, hfind, hc, hdb.symm, hreq.symm⟩
        · rw [if_neg (by simp [hc])] at h
          simp at h

theorem verifyHeader_expired_inv {hashFn : PyStr → PyStr} {now : Nat}
    {db : DB} {req : Request} {db2 : DB} {req2 : Request}
    (h : verifyHeader hashFn now db req = (.error .tokenExpired, db2, req2)) :
    ∃ t u, req.auth = some t ∧ t ≠ [] ∧
      getUserByToken db.users t = some u ∧
      checkToken hashFn now u t = false ∧
      db2 = { db with users := clearTokenOf db.users u.pk } ∧
      req2 = { req with sessionUser := none } := by
  unfold verifyHeader at h
  cases hauth : req.auth with
  | none => rw [hauth] at h; dsimp only at h; simp at h
  | some t =>
    rw [hauth] at h
    dsimp only at h
    by_cases ht : t = []
    · rw [if_pos ht] at h; simp at h
    · rw [if_neg ht] at h
      cases hfind : getUserByToken db.users t with
      | none => rw [hfind] at h; dsimp only at h; simp at h
      | some w =>
        rw [hfind] at h
        dsimp only at h
        by_cases hc : checkToken hashFn now w t
        · rw [if_pos hc] at h; simp at h
        · rw [if_neg (by simp [hc])] at h
          simp only [Prod.mk.injEq] at h
          exact ⟨t, w, rfl, ht, hfind,
            Bool.eq_false_iff.mpr hc, h.2.1.symm, h.2.2.symm⟩

theorem verifyHeader_frame {hashFn : PyStr → PyStr} {now : Nat} {db : DB}
    {req : Request} {r : Except AuthError User} {db' : DB} {req' : Request}
    (h : verifyHeader hashFn now db req = (r, db', req')) :
    db'.authors = db.authors ∧ db'.books = db.books ∧
    db'.genres = db.genres := by
  unfold verifyHeader at h
  cases hauth : req.auth with
  | none =>
    rw [hauth] at h
    dsimp only at h
    simp only [Prod.mk.injEq] at h
    rw [← h.2.1]
    exact ⟨rfl, rfl, rfl⟩
  | some t =>
    rw [hauth] at h
    dsimp only at h
    by_cases ht : t = []
    · rw [if_pos ht] at h
      simp only [Prod.mk.injEq] at h
      rw [← h.2.1]
      exact ⟨rfl, rfl, rfl⟩
    · rw [if_neg ht] at h
      cases hfind : getUserByToken db.users t with
      | none =>
        rw [hfind] at h
        dsimp only at h
        simp only [Prod.mk.injEq] at h
        rw [← h.2.1]
        exact ⟨rfl, rfl, rfl⟩
      | some w =>
        rw [hfind] at h
        dsimp only at h
        by_cases hc : checkToken hashFn now w t
        · rw [if_pos hc] at h
          simp only [Prod.mk.injEq] at h
          rw [← h.2.1]
          exact ⟨rfl, rfl, rfl⟩
        · rw [if_neg (by simp [hc])] at h
          simp only [Prod.mk.injEq] at h
          rw [← h.2.1]
          exact ⟨rfl, rfl, rfl⟩

/-! ### Concrete fixtures -/

/-- A concrete keyed hash for witnesses: every input hashes to the
empty string, so `makeToken` at clock 0 is `"0-"`, codes `[48, 45]`. -/
def hashFn0 : PyStr → PyStr := fun _ => []

/-- The token `"0-"` produced by `makeToken hashFn0 0 u` for any user. -/
def tok0 : PyStr := [48, dashCode]

/-- A registered non-author, non-admin, non-patron user holding a
session token. -/
def uPlain : User :=
  { pk := 1, email := "a@x.com", username := "u1", firstName := "Ann",
    lastName := "Bee", isActive := true, isAdmin := false,
    isPatron := false, isAuthor := false, token := some tok0,
    password := .hashed 7 "p1" }

/-- An author user holding a session token. -/
def uAuthor : User :=
  { pk := 2, email := "b@x.com", username := "u2", firstName := "Cal",
    lastName := "Dee", isActive := true, isAdmin := false,
    isPatron := false, isAuthor := true, token := some tok0,
    password := .hashed 7 "p2" }

/-- The author profile of `uAuthor`. -/
def aRec : AuthorRec := ⟨20, 2⟩

/-- A book whose author set contains `uAuthor`'s author profile. -/
def bookOwn : BookRec :=
  { bookid := 5, title := .str "T", isbn := .str "i", description := .str "d",
    rating := .int 0, publishyear := .str "2020", noofreviews := .int 0,
    avaliablecopies := .int 3, bookpages := .int 99, authors := [20],
    genres := [] }

/-- A book whose author set does not contain `uAuthor`'s profile. -/
def bookOther : BookRec := { bookOwn with authors := [99] }

/-- A request presenting `tok0` in the authorization header. -/
def reqTok : Request := ⟨some tok0, none⟩

/-- A request with no authorization header. -/
def reqNone : Request := ⟨none, none⟩

/-! ### C1 -/

/-- Claim C1 counterexample: with one stored identity and a presented
token matching no stored token, `verify_header` fails with
`InvalidToken` — an outcome the claim's three-way decision procedure
("no other outcome is possible") does not contain. -/
theorem verify_header_fourth_outcome_cex :
    ¬ (((verifyHeader hashFn0 0 ⟨[uPlain], [], [], []⟩ ⟨some [97], none⟩).1
          = .error .unauthenticated) ∨
       (∃ u, (verifyHeader hashFn0 0 ⟨[uPlain], [], [], []⟩
          ⟨some [97], none⟩).1 = .ok u) ∨
       ((verifyHeader hashFn0 0 ⟨[uPlain], [], [], []⟩ ⟨some [97], none⟩).1
          = .error .tokenExpired)) := by
  have hres : (verifyHeader hashFn0 0 ⟨[uPlain], [], [], []⟩
      ⟨some [97], none⟩).1 = .error .invalidToken := by decide
  rw [hres]
  rintro (h | ⟨u, h⟩ | h) <;> cases h

/-- Claim C1 (amended): `verify_header` implements exactly the
four-way decision procedure — a falsy (absent or empty) authorization
value fails `Unauthenticated`; a presented token matching no stored
token fails `InvalidToken`; a matching identity passing `check_token`
is returned with no state change; a matching identity failing
`check_token` has its stored token cleared and its session ended, and
the call fails `TokenExpired` — and no other outcome is possible. -/
theorem verify_header_decision_procedure (hashFn : PyStr → PyStr)
    (now : Nat) (db : DB) (req : Request) :
    (req.auth = none →
      verifyHeader hashFn now db req = (.error .unauthenticated, db, req)) ∧
    (req.auth = some [] →
      verifyHeader hashFn now db req = (.error .unauthenticated, db, req)) ∧
    (∀ t, req.auth = some t → t ≠ [] → getUserByToken db.users t = none →
      verifyHeader hashFn now db req = (.error .invalidToken, db, req)) ∧
    (∀ t u, req.auth = some t → t ≠ [] →
      getUserByToken db.users t = some u → checkToken hashFn now u t = true →
      verifyHeader hashFn now db req = (.ok u, db, req)) ∧
    (∀ t u, req.auth = some t → t ≠ [] →
      getUserByToken db.users t = some u → checkToken hashFn now u t = false →
      verifyHeader hashFn now db req =
        (.error .tokenExpired, { db with users := clearTokenOf db.users u.pk },
         { req with sessionUser := none })) := by
  refine ⟨?_, ?_, ?_, ?_, ?_⟩
  · intro h
    unfold verifyHeader
    rw [h]
  · intro h
    unfold verifyHeader
    rw [h]
    dsimp only
    rw [if_pos rfl]
  · intro t hauth ht hfind
    unfold verifyHeader
    rw [hauth]
    dsimp only
    rw [if_neg ht, hfind]
  · intro t u hauth ht hfind hc
    unfold verifyHeader
    rw [hauth]
    dsimp only
    rw [if_neg ht, hfind]
    dsimp only
    rw [if_pos hc]
  · intro t u hauth ht hfind hc
    unfold verifyHeader
    rw [hauth]
    dsimp only
    rw [if_neg ht, hfind]
    dsimp only
    rw [if_neg (by simp [hc])]

/-- Witness for C1: the amended decision procedure applied to the
counterexample state yields the `InvalidToken` branch concretely. -/
theorem verify_header_decision_procedure_witness :
    verifyHeader hashFn0 0 ⟨[uPlain], [], [], []⟩ ⟨some [97], none⟩
      = (.error .invalidToken, ⟨[uPlain], [], [], []⟩, ⟨some [97], none⟩) :=
  (verify_header_decision_procedure hashFn0 0 ⟨[uPlain], [], [], []⟩
    ⟨some [97], none⟩).2.2.1 [97] rfl (by decide) (by decide)

/-! ### C4 -/

/-- Claim C4: an identity whose stored token is unset is never the one
`verify_header` resolves — the returned identity's stored token always
equals the presented string — and in a store where every identity's
token is null, any presented token fails with `InvalidToken` (the
lookup resolves nobody, so `check_token` is never consulted and the
state is untouched). -/
theorem verify_header_null_token_invalid :
    (∀ (hashFn : PyStr → PyStr) (now : Nat) (db : DB) (req : Request)
       (u : User) (db' : DB) (req' : Request),
       verifyHeader hashFn now db req = (.ok u, db', req') →
       ∃ t, req.auth = some t ∧ u.token = some t) ∧
    (∀ (hashFn : PyStr → PyStr) (now : Nat) (db : DB) (req : Request)
       (t : PyStr), req.auth = some t → t ≠ [] →
       (∀ w ∈ db.users, w.token = none) →
       verifyHeader hashFn now db req = (.error .invalidToken, db, req)) := by
  constructor
  · intro hashFn now db req u db' req' h
    obtain ⟨t, hauth, _, hfind, _, _, _⟩ := verifyHeader_ok_inv h
    refine ⟨t, hauth, ?_⟩
    have := List.find?_some hfind
    exact eq_of_beq this
  · intro hashFn now db req t hauth ht hall
    have hfind : getUserByToken db.users t = none := by
      unfold getUserByToken
      rw [List.find?_eq_none]
      intro w hw
      rw [hall w hw]
      simp
    unfold verifyHeader
    rw [hauth]
    dsimp only
    rw [if_neg ht, hfind]

/-- Witness for C4: a store whose only identity has no stored token
rejects the presented token `"a"` with `InvalidToken`. -/
theorem verify_header_null_token_invalid_witness :
    verifyHeader hashFn0 0 ⟨[{ uPlain with token := none }], [], [], []⟩
        ⟨some [97], none⟩
      = (.error .invalidToken,
         ⟨[{ uPlain with token := none }], [], [], []⟩, ⟨some [97], none⟩) :=
  verify_header_null_token_invalid.2 hashFn0 0
    ⟨[{ uPlain with token := none }], [], [], []⟩ ⟨some [97], none⟩
    [97] rfl (by decide) (by decide)

/-! ### C2 -/

theorem append_dash_inj {a c b d : PyStr} (ha : dashCode ∉ a)
    (hc : dashCode ∉ c) (h : a ++ dashCode :: b = c ++ dashCode :: d) :
    a = c ∧ b = d := by
  induction a generalizing c with
  | nil =>
    cases c with
    | nil => simpa using h
    | cons y cs =>
      simp only [List.nil_append, List.cons_append, List.cons.injEq] at h
      exact absurd (h.1 ▸ List.mem_cons_self y cs) (h.1 ▸ hc)
  | cons x xs ih =>
    cases c with
    | nil =>
      simp only [List.cons_append, List.nil_append, List.cons.injEq] at h
      exact absurd (h.1 ▸ List.mem_cons_self x xs) (h.1 ▸ ha)
    | cons y cs =>
      simp only [List.cons_append, List.cons.injEq] at h
      have ha' : dashCode ∉ xs := fun hm => ha (List.mem_cons.mpr (Or.inr hm))
      have hc' : dashCode ∉ cs := fun hm => hc (List.mem_cons.mpr (Or.inr hm))
      obtain ⟨h1, h2⟩ := ih ha' hc' h.2
      exact ⟨by rw [h.1, h1], h2⟩

theorem makeToken_ne_nil (hashFn : PyStr → PyStr) (now : Nat) (u : User) :
    makeToken hashFn now u ≠ [] := by
  unfold makeToken makeTokenWithTimestamp
  cases h36 : intToBase36 now with
  | nil => exact absurd h36 (intToBase36_ne_nil now)
  | cons c cs => simp

theorem checkToken_makeToken (hashFn : PyStr → PyStr) (now : Nat) (u : User)
    (hDash : dashCode ∉ hashFn (makeHashValue u now))
    (hLen : (intToBase36 now).length ≤ 13) :
    checkToken hashFn now u (makeToken hashFn now u) = true := by
  have htok : makeToken hashFn now u =
      intToBase36 now ++ dashCode :: hashFn (makeHashValue u now) := rfl
  unfold checkToken
  rw [if_neg (makeToken_ne_nil hashFn now u)]
  rw [htok, splitOnDash_pair (intToBase36_no_dash now) hDash]
  dsimp only
  rw [base36ToInt_intToBase36 hLen]
  dsimp only
  rw [if_pos (by rfl)]
  simp only [decide_eq_true_eq]
  unfold PASSWORD_RESET_TIMEOUT
  omega

/-- Claim C2: once the exact string produced by `make_token` is
persisted as the identity's stored token, presenting it to
`verify_header` at the same clock reading succeeds and returns that
identity; and `check_token` accepts a token only when the hash it
recomputes under its own "now + 10 seconds" rule equals the submitted
hash component exactly. -/
theorem token_roundtrip (hashFn : PyStr → PyStr) (now : Nat) (db : DB)
    (req : Request) (u : User)
    (hDash : dashCode ∉ hashFn (makeHashValue u now))
    (hLen : (intToBase36 now).length ≤ 13)
    (hFind : getUserByToken db.users (makeToken hashFn now u) = some u)
    (hAuth : req.auth = some (makeToken hashFn now u)) :
    verifyHeader hashFn now db req = (.ok u, db, req) ∧
    ∀ tok, checkToken hashFn now u tok = true →
      ∃ ts36 hcomp, splitOnDash tok = [ts36, hcomp] ∧
        hcomp = hashFn (makeHashValue u now) := by
  constructor
  · unfold verifyHeader
    rw [hAuth]
    dsimp only
    rw [if_neg (makeToken_ne_nil hashFn now u), hFind]
    dsimp only
    rw [if_pos (checkToken_makeToken hashFn now u hDash hLen)]
  · intro tok hck
    unfold checkToken at hck
    by_cases h0 : tok = []
    · rw [if_pos h0] at hck
      simp at hck
    · rw [if_neg h0] at hck
      split at hck
      · rename_i ts36 x heq
        split at hck
        · simp at hck
        · rename_i ts hb
          split at hck
          · rename_i hm
            obtain ⟨htok, hts36, hx⟩ := splitOnDash_eq_pair heq
            have heqq : intToBase36 ts ++ dashCode ::
                hashFn (makeHashValue u now) = ts36 ++ dashCode :: x := by
              rw [← htok, ← hm]
              rfl
            obtain ⟨_, h2⟩ :=
              append_dash_inj (intToBase36_no_dash ts) hts36 heqq
            exact ⟨ts36, x, heq, h2.symm⟩
          · simp at hck
      · simp at hck

/-- Witness for C2: with the trivial keyed hash, the identity holding
`makeToken hashFn0 0 uPlain` (the string `"0-"`) is returned by
`verify_header` at the same clock. -/
theorem token_roundtrip_witness :
    verifyHeader hashFn0 0 ⟨[uPlain], [], [], []⟩ reqTok
      = (.ok uPlain, ⟨[uPlain], [], [], []⟩, reqTok) :=
  (token_roundtrip hashFn0 0 ⟨[uPlain], [], [], []⟩ reqTok uPlain
    (by decide) (by decide) (by decide) (by decide)).1

/-! ### C3 -/

/-- Claim C3: expiry detection is destructive and non-repeatable.
After `verify_header` fails with `TokenExpired` for an identity, that
identity's stored token is null in the successor store and, provided
the store held no second identity with the same token (the unique
constraint), any later call presenting the old token string fails with
`InvalidToken`, never `TokenExpired`. -/
theorem token_expiry_destructive (hashFn : PyStr → PyStr)
    (now now2 : Nat) (db : DB) (req req2 : Request) (db2 : DB)
    (t : PyStr) (u : User)
    (hAuth : req.auth = some t)
    (hFind : getUserByToken db.users t = some u)
    (hUniq : ∀ w ∈ db.users, w.token = some t → w.pk = u.pk)
    (hRun : verifyHeader hashFn now db req =
      (.error .tokenExpired, db2, req2)) :
    (∀ w ∈ db2.users, w.pk = u.pk → w.token = none) ∧
    (∀ req3 : Request, req3.auth = some t →
      (verifyHeader hashFn now2 db2 req3).1 = .error .invalidToken) := by
  obtain ⟨t', u', hauth', ht', hfind', hc', hdb2, hreq2⟩ :=
    verifyHeader_expired_inv hRun
  rw [hAuth] at hauth'
  injection hauth' with hauth'
  subst hauth'
  rw [hFind] at hfind'
  injection hfind' with hfind'
  subst hfind'
  have hnone : getUserByToken db2.users t = none := by
    unfold getUserByToken
    rw [List.find?_eq_none]
    intro w' hw'
    rw [hdb2] at hw'
    simp only [clearTokenOf, List.mem_map] at hw'
    obtain ⟨w0, hw0, hmap⟩ := hw'
    by_cases hpk : w0.pk == u.pk
    · rw [if_pos hpk] at hmap
      rw [← hmap]
      simp
    · rw [if_neg hpk] at hmap
      subst hmap
      intro hbeq
      have : w0.token = some t := eq_of_beq hbeq
      exact hpk (beq_iff_eq.mpr (hUniq w0 hw0 this))
  constructor
  · intro w hw hpk
    rw [hdb2] at hw
    simp only [clearTokenOf, List.mem_map] at hw
    obtain ⟨w0, hw0, hmap⟩ := hw
    by_cases hpk0 : w0.pk == u.pk
    · rw [if_pos hpk0] at hmap
      rw [← hmap]
    · rw [if_neg hpk0] at hmap
      subst hmap
      exact absurd (beq_iff_eq.mpr hpk) hpk0
  · intro req3 hauth3
    unfold verifyHeader
    rw [hauth3]
    dsimp only
    rw [if_neg ht', hnone]

/-- A user whose stored token is the malformed string `"a"`, which
`check_token` rejects. -/
def uBad : User := { uPlain with token := some [97] }

/-- Witness for C3: the malformed-token identity is expired away; in
the resulting store the token column is null and re-presenting `"a"`
at a later clock yields `InvalidToken`. -/
theorem token_expiry_destructive_witness :
    (∀ w ∈ (verifyHeader hashFn0 0 ⟨[uBad], [], [], []⟩
        ⟨some [97], none⟩).2.1.users, w.pk = uBad.pk → w.token = none) ∧
    ((verifyHeader hashFn0 5 (verifyHeader hashFn0 0 ⟨[uBad], [], [], []⟩
        ⟨some [97], none⟩).2.1 ⟨some [97], none⟩).1
      = .error .invalidToken) := by
  have h := token_expiry_destructive hashFn0 0 5 ⟨[uBad], [], [], []⟩
    ⟨some [97], none⟩
    ((verifyHeader hashFn0 0 ⟨[uBad], [], [], []⟩ ⟨some [97], none⟩).2.2)
    ((verifyHeader hashFn0 0 ⟨[uBad], [], [], []⟩ ⟨some [97], none⟩).2.1)
    [97] uBad rfl (by decide) (by decide) (by decide)
  exact ⟨h.1, h.2 ⟨some [97], none⟩ rfl⟩

/-! ### C5 -/

/-- The empty store. -/
def dbEmpty : DB := ⟨[], [], [], []⟩

/-- Claim C5 is a code bug: the signup mutation bypasses
`create_user`/`set_password` and stores the raw password string, while
the manager's own `create_user` path stores the salted hash — so the
"every creation path stores a salted hash" invariant fails on the
signup path.  Evaluated here at the concrete failing input. -/
theorem signup_stores_raw_password :
    (signUpMutation 1 dbEmpty reqNone "a@x.com" "u1" "Ann" "Bee" "p1" "p1"
      ).result = .ok () ∧
    (signUpMutation 1 dbEmpty reqNone "a@x.com" "u1" "Ann" "Bee" "p1" "p1"
      ).db.users.map User.password = [.raw "p1"] ∧
    (create_user 1 7 "a@x.com" "u1" "Ann" "Bee" "p1").map User.password
      = .ok (.hashed 7 "p1") ∧
    StoredPassword.raw "p1" ≠ .hashed 7 "p1" := by
  refine ⟨by decide, by decide, by decide, by decide⟩

/-! ### C6 -/

/-- A request presenting the author's token. -/
def dbDelNonAuth : DB := ⟨[uPlain], [], [bookOther], []⟩

/-- Store in which `uAuthor` owns the only book. -/
def dbDelOwn : DB := ⟨[uAuthor], [aRec], [bookOwn], []⟩

/-- Store in which `uAuthor` does not own the only book. -/
def dbDelOther : DB := ⟨[uAuthor], [aRec], [bookOther], []⟩

/-- Claim C6 is a code bug: the role guard holds (a non-author is
rejected with "User is not an author"), but the delete ownership test
is inverted — the owning author is rejected with "User not the author
of Book" while a non-owning author successfully deletes the book — and
the edit path always fails on the nonexistent `AuthorUser.book`
attribute instead of performing the ownership check. -/
theorem delete_book_ownership_inverted :
    (deleteBookMutation hashFn0 0 dbDelNonAuth reqTok 5).result
      = .error "User is not an author" ∧
    (deleteBookMutation hashFn0 0 dbDelOwn reqTok 5).result
      = .error "User not the author of Book" ∧
    (deleteBookMutation hashFn0 0 dbDelOwn reqTok 5).db.books = [bookOwn] ∧
    (deleteBookMutation hashFn0 0 dbDelOther reqTok 5).result = .ok () ∧
    (deleteBookMutation hashFn0 0 dbDelOther reqTok 5).db.books = [] ∧
    (editBookMutation hashFn0 0 dbDelOwn reqTok 5).result
      = .error "AuthorUser object has no attribute book" ∧
    (editBookMutation hashFn0 0 dbDelOwn reqTok 5).db.books = [bookOwn] := by
  refine ⟨by decide, by decide, by decide, by decide, by decide,
    by decide, by decide⟩

/-! ### C7 -/

/-- Claim C7 is a code bug: every author/genre relation mutation dies
in `AddToBook.mutate` on the unbound name `bookid`, so the
duplicate/presence guards that would make adding and removing
idempotent are dead code — instead of succeeding as a no-op, adding an
author already on the book (and removing one who is absent, and the
genre analogues) fails with a `GraphQLError`.  The store is never
changed; the first conjunct states this for every input, the rest
evaluate the failing inputs. -/
theorem relation_mutations_always_fail :
    (∀ (hashFn : PyStr → PyStr) (now : Nat) (db : DB) (req : Request)
       (bid aid : Nat),
       (addAuthorToBookMutation hashFn now db req bid aid).db.books
           = db.books ∧
       ∃ msg, (addAuthorToBookMutation hashFn now db req bid aid).result
           = .error msg) ∧
    (addAuthorToBookMutation hashFn0 0 dbDelOwn reqTok 5 20).result
      = .error "name bookid is not defined" ∧
    (addAuthorToBookMutation hashFn0 0 dbDelOwn reqTok 5 20).db = dbDelOwn ∧
    (removeAuthorFromBookMutation hashFn0 0 dbDelOther reqTok 5 20).result
      = .error "name bookid is not defined" ∧
    (removeAuthorFromBookMutation hashFn0 0 dbDelOther reqTok 5 20).db
      = dbDelOther ∧
    (addGenreToBookMutation hashFn0 0 dbDelOwn reqTok 5 1).result
      = .error "name bookid is not defined" ∧
    (removeGenreFromBookMutation hashFn0 0 dbDelOwn reqTok 5 1).result
      = .error "name bookid is not defined" := by
  refine ⟨?_, by decide, by decide, by decide, by decide, by decide,
    by decide⟩
  intro hashFn now db req bid aid
  unfold addAuthorToBookMutation addToBookSuper
  cases hv : verifyHeader hashFn now db req with
  | mk r rest =>
    cases rest with
    | mk db' req' =>
      have hbooks := (verifyHeader_frame hv).2.1
      cases r with
      | error e => exact ⟨hbooks, e.message, rfl⟩
      | ok u =>
        by_cases hu : u.isAuthor
        · simp only [hu]
          exact ⟨hbooks, "name bookid is not defined", by simp⟩
        · simp only [hu]
          exact ⟨hbooks, "User is not an author", by simp⟩

/-! ### C8 -/

/-- Claim C8: on a successful password check, login stores a freshly
generated token when none is stored and leaves a previously issued
token unchanged; a failed password check produces the
invalid-credentials error and changes nothing. -/
theorem login_token_lifecycle (hashFn : PyStr → PyStr) (now : Nat)
    (db : DB) (req : Request) (email password : String) (u : User)
    (hFind : db.users.find? (fun w => w.email == email) = some u) :
    (checkPassword password u.password = true → u.token = none →
      (loginMutation hashFn now db req email password).result = .ok () ∧
      ∀ w ∈ (loginMutation hashFn now db req email password).db.users,
        w.pk = u.pk → w.token = some (makeToken hashFn now u)) ∧
    (∀ t0, checkPassword password u.password = true → u.token = some t0 →
      (loginMutation hashFn now db req email password).result = .ok () ∧
      ∀ w ∈ (loginMutation hashFn now db req email password).db.users,
        w.pk = u.pk → w.token = some t0) ∧
    (checkPassword password u.password = false →
      loginMutation hashFn now db req email password
        = ⟨.error "Invalid credentials. Please try again.", db, req⟩) := by
  refine ⟨?_, ?_, ?_⟩
  · intro hcp htok
    unfold loginMutation
    rw [hFind]
    dsimp only
    rw [if_pos hcp, if_pos htok]
    refine ⟨rfl, ?_⟩
    intro w hw hpk
    simp only [List.mem_map] at hw
    obtain ⟨w0, _, hmap⟩ := hw
    by_cases hpk0 : w0.pk == u.pk
    · rw [if_pos hpk0] at hmap
      rw [← hmap]
    · rw [if_neg hpk0] at hmap
      subst hmap
      exact absurd (beq_iff_eq.mpr hpk) hpk0
  · intro t0 hcp htok
    unfold loginMutation
    rw [hFind]
    dsimp only
    rw [if_pos hcp, if_neg (by rw [htok]; simp)]
    refine ⟨rfl, ?_⟩
    intro w hw hpk
    simp only [List.mem_map] at hw
    obtain ⟨w0, _, hmap⟩ := hw
    by_cases hpk0 : w0.pk == u.pk
    · rw [if_pos hpk0] at hmap
      rw [← hmap]
      exact htok
    · rw [if_neg hpk0] at hmap
      subst hmap
      exact absurd (beq_iff_eq.mpr hpk) hpk0
  · intro hcp
    unfold loginMutation
    rw [hFind]
    dsimp only
    rw [if_neg (by simp [hcp])]

/-- The user `uPlain` before any login: no stored token. -/
def uFresh : User := { uPlain with token := none }

/-- Witness for C8: logging `uFresh` in with the matching password
succeeds and stores the freshly generated token `"0-"`; the second
login leaves it unchanged. -/
theorem login_token_lifecycle_witness :
    checkPassword "p1" uFresh.password = true ∧
    (loginMutation hashFn0 0 ⟨[uFresh], [], [], []⟩ reqNone "a@x.com" "p1"
      ).result = .ok () ∧
    (∀ w ∈ (loginMutation hashFn0 0 ⟨[uFresh], [], [], []⟩ reqNone
        "a@x.com" "p1").db.users,
      w.pk = uFresh.pk → w.token = some (makeToken hashFn0 0 uFresh)) := by
  have h := (login_token_lifecycle hashFn0 0 ⟨[uFresh], [], [], []⟩ reqNone
    "a@x.com" "p1" uFresh (by decide)).1 (by decide) (by decide)
  exact ⟨by decide, h.1, h.2⟩

/-! ### C9 -/

/-- Claim C9: the genre mutations gate only on `verify_header`
succeeding — the acting identity's role flags are never consulted (the
identity is universally quantified with arbitrary flags), so any
identity holding a valid token can create, rename and delete any
genre. -/
theorem genre_mutations_role_blind (hashFn : PyStr → PyStr) (now : Nat)
    (db : DB) (req : Request) (u : User) (db' : DB) (req' : Request)
    (newId : Nat) (name description : String) (genreid : Nat)
    (nm ds : Option String) (g : GenreRec)
    (hv : verifyHeader hashFn now db req = (.ok u, db', req'))
    (hg : db'.genres.find? (fun h => h.genreid == genreid) = some g) :
    (createGenreMutation hashFn now db req newId name description).result
      = .ok () ∧
    (createGenreMutation hashFn now db req newId name description).db.genres
      = db'.genres ++ [⟨newId, name, description⟩] ∧
    (editGenreMutation hashFn now db req genreid nm ds).result = .ok () ∧
    (deleteGenreMutation hashFn now db req genreid).result = .ok () ∧
    (deleteGenreMutation hashFn now db req genreid).db.genres
      = db'.genres.filter (fun h => h.genreid != g.genreid) := by
  refine ⟨?_, ?_, ?_, ?_, ?_⟩
  · unfold createGenreMutation
    rw [hv]
  · unfold createGenreMutation
    rw [hv]
  · unfold editGenreMutation
    rw [hv]
    dsimp only
    rw [hg]
  · unfold deleteGenreMutation
    rw [hv]
    dsimp only
    rw [hg]
  · unfold deleteGenreMutation
    rw [hv]
    dsimp only
    rw [hg]

/-- A store holding the tokened non-author `uPlain` and one genre. -/
def dbGenre : DB := ⟨[uPlain], [], [], [⟨3, "g", "d"⟩]⟩

/-- Witness for C9: `uPlain` — neither admin, author nor patron, but
holding a valid token — creates, renames and deletes a genre. -/
theorem genre_mutations_role_blind_witness :
    uPlain.isAdmin = false ∧ uPlain.isAuthor = false ∧
    uPlain.isPatron = false ∧
    (createGenreMutation hashFn0 0 dbGenre reqTok 4 "n" "e").result
      = .ok () ∧
    (createGenreMutation hashFn0 0 dbGenre reqTok 4 "n" "e").db.genres
      = dbGenre.genres ++ [⟨4, "n", "e"⟩] ∧
    (editGenreMutation hashFn0 0 dbGenre reqTok 3 (some "n2") none).result
      = .ok () ∧
    (deleteGenreMutation hashFn0 0 dbGenre reqTok 3).result = .ok () ∧
    (deleteGenreMutation hashFn0 0 dbGenre reqTok 3).db.genres
      = dbGenre.genres.filter
          (fun h => h.genreid != (⟨3, "g", "d"⟩ : GenreRec).genreid) := by
  have h := genre_mutations_role_blind hashFn0 0 dbGenre reqTok uPlain
    dbGenre reqTok 4 "n" "e" 3 (some "n2") none ⟨3, "g", "d"⟩
    (by decide) (by decide)
  exact ⟨rfl, rfl, rfl, h.1, h.2.1, h.2.2.1, h.2.2.2.1, h.2.2.2.2⟩

/-! ### C10 -/

/-- Claim C10: in `Book.edit_book`, every field whose key is absent
from the keyword mapping is left unchanged, and whenever the mapping
contains the key "title" — as the edit-book mutation's `all_query`
mapping always does — the title afterwards is `None`, because the
assignment fetches the misspelled key "title`" instead of the supplied
value. -/
theorem edit_book_frame_and_title (b : BookRec)
    (kw : List (String × PyVal)) :
    (edit_book b kw).bookid = b.bookid ∧
    (edit_book b kw).authors = b.authors ∧
    (edit_book b kw).genres = b.genres ∧
    (dictHasKey "title" kw = false → (edit_book b kw).title = b.title) ∧
    (dictHasKey "isbn" kw = false → (edit_book b kw).isbn = b.isbn) ∧
    (dictHasKey "description" kw = false →
      (edit_book b kw).description = b.description) ∧
    (dictHasKey "rating" kw = false → (edit_book b kw).rating = b.rating) ∧
    (dictHasKey "publishyear" kw = false →
      (edit_book b kw).publishyear = b.publishyear) ∧
    (dictHasKey "noofreviews" kw = false →
      (edit_book b kw).noofreviews = b.noofreviews) ∧
    (dictHasKey "avaliablecopies" kw = false →
      (edit_book b kw).avaliablecopies = b.avaliablecopies) ∧
    (dictHasKey "bookpages" kw = false →
      (edit_book b kw).bookpages = b.bookpages) ∧
    (dictHasKey "title" kw = true → kw.lookup "title`" = none →
      (edit_book b kw).title = PyVal.none) ∧
    (∀ t i d nr ac r py bp,
      (edit_book b (all_query t i d nr ac r py bp)).title = PyVal.none) := by
  refine ⟨rfl, rfl, rfl, ?_, ?_, ?_, ?_, ?_, ?_, ?_, ?_, ?_, ?_⟩
  · intro h; simp [edit_book, h]
  · intro h; simp [edit_book, h]
  · intro h; simp [edit_book, h]
  · intro h; simp [edit_book, h]
  · intro h; simp [edit_book, h]
  · intro h; simp [edit_book, h]
  · intro h; simp [edit_book, h]
  · intro h; simp [edit_book, h]
  · intro h1 h2
    simp [edit_book, h1, dictGet, h2]
  · intro t i d nr ac r py bp
    simp [edit_book, all_query, dictHasKey, dictGet, List.lookup]

/-- Witness for C10: editing a concrete book through a mapping that
carries only "title" blanks the title and leaves the ISBN unchanged. -/
theorem edit_book_frame_and_title_witness :
    (edit_book bookOwn [("title", PyVal.str "New")]).title = PyVal.none ∧
    (edit_book bookOwn [("title", PyVal.str "New")]).isbn = bookOwn.isbn ∧
    (edit_book bookOwn
        (all_query (.str "New") (.str "i2") (.str "d2") (.int 1) (.int 2)
          (.int 3) (.str "2021") (.int 4))).title = PyVal.none := by
  have h := edit_book_frame_and_title bookOwn [("title", PyVal.str "New")]
  refine ⟨h.2.2.2.2.2.2.2.2.2.2.2.1 (by decide) (by decide), ?_, ?_⟩
  · exact h.2.2.2.2.1 (by decide)
  · exact (edit_book_frame_and_title bookOwn []).2.2.2.2.2.2.2.2.2.2.2.2
      (.str "New") (.str "i2") (.str "d2") (.int 1) (.int 2) (.int 3)
      (.str "2021") (.int 4)

end Codex
